import Mathlib

/-!
# Subscription service: repository layer

A shallow embedding of `internal/models/subscription.go` and
`internal/repository/subscription_repository.go`.

The repository talks to a relational store through parameterised statements.
Here the store is a list of rows of the `subscriptions` table, a `WHERE`
clause is a list of conjuncts over a small expression language with
positional placeholders, and every repository operation is a function from
the store before the call to the outcome and the store after it.
-/

namespace SubscriptionService

/-! ## Data model (`internal/models/subscription.go`) -/

/-- The 128-bit value of a `uuid.UUID`. -/
abbrev UUID := Nat

/-- A calendar date (`start_date`, `end_date` and the `YYYY-MM-DD` query
dates), as a day number: later dates are larger. -/
abbrev Date := Int

/-- A server timestamp (`created_at`, `updated_at`): later instants are larger. -/
abbrev Timestamp := Nat

/-- The value of a price. The Go type is `float64`; every finite `float64` is
a rational number, and so is every value of a decimal column. Only the value
is represented: the floating-point arithmetic of the store and of Go on
prices (rounding, order of summation, overflow) is not, and no theorem of
this development depends on the value of a sum of one or more prices. -/
abbrev Decimal := ℚ

/-- The type `models.Subscription`, one row of the `subscriptions` table. -/
structure Subscription where
  ID : UUID
  ServiceName : String
  Price : Decimal
  UserID : UUID
  StartDate : Date
  EndDate : Option Date
  CreatedAt : Timestamp
  UpdatedAt : Timestamp
  deriving DecidableEq

/-- The type `models.UpdateSubscriptionRequest`: a nil pointer is `none`. -/
structure UpdateSubscriptionRequest where
  ServiceName : Option String
  Price : Option Decimal
  EndDate : Option Date
  deriving DecidableEq

/-- The type `models.SummaryRequest`: a nil pointer is `none`. -/
structure SummaryRequest where
  StartDate : Option Date
  EndDate : Option Date
  UserID : Option UUID
  ServiceName : Option String
  deriving DecidableEq

/-- The type `models.SubscriptionSummary` as the repository fills it (`Subscriptions`
is never set by `GetSummary`). -/
structure SubscriptionSummary where
  TotalCost : Decimal
  Subscriptions : List Subscription
  deriving DecidableEq

deriving instance DecidableEq for Except

/-! ## Statements: values, expressions, three-valued evaluation -/

/-- A value bound to a placeholder or read from a column. -/
inductive Value where
  | null
  | date (d : Date)
  | uuid (u : UUID)
  | text (s : String)
  | num (q : Decimal)
  deriving DecidableEq

/-- The columns that occur in the `WHERE` clauses of the repository. -/
inductive Column where
  | id
  | service_name
  | user_id
  | start_date
  | end_date
  deriving DecidableEq

/-- The name of a column as it is written in a statement. -/
def Column.sql : Column → String
  | .id => "id"
  | .service_name => "service_name"
  | .user_id => "user_id"
  | .start_date => "start_date"
  | .end_date => "end_date"

/-- The value of a column in a row; an absent `end_date` is SQL `NULL`. -/
def Subscription.column (r : Subscription) : Column → Value
  | .id => .uuid r.ID
  | .service_name => .text r.ServiceName
  | .user_id => .uuid r.UserID
  | .start_date => .date r.StartDate
  | .end_date =>
    match r.EndDate with
    | some d => .date d
    | none => .null

/-- An operand of a comparison: a column or the placeholder `$i`. -/
inductive Operand where
  | col (c : Column)
  | param (i : Nat)
  deriving DecidableEq

/-- The conjuncts the repository writes into a `WHERE` clause. -/
inductive Expr where
  | le (a b : Operand)
  | ge (a b : Operand)
  | eq (a b : Operand)
  | isNull (a : Operand)
  | or (p q : Expr)
  deriving DecidableEq

/-- The text of an operand; `$%d` prints the position in decimal. -/
def Operand.sql : Operand → String
  | .col c => c.sql
  | .param i => "$" ++ toString i

/-- The text of a conjunct; a disjunction is written in parentheses. -/
def Expr.sql : Expr → String
  | .le a b => a.sql ++ " <= " ++ b.sql
  | .ge a b => a.sql ++ " >= " ++ b.sql
  | .eq a b => a.sql ++ " = " ++ b.sql
  | .isNull a => a.sql ++ " IS NULL"
  | .or p q => "(" ++ p.sql ++ " OR " ++ q.sql ++ ")"

/-- The text appended to a statement for a list of conjuncts: each one is
preceded by `" AND "`. -/
def whereSql (conds : List Expr) : String :=
  conds.foldl (fun acc c => acc ++ " AND " ++ c.sql) ""

/-- The placeholder `$i` resolved against the bound arguments: `$i` is
`args[i-1]`. A placeholder without an argument is treated as `NULL` (the store
would reject such a statement; the repository never builds one). -/
def resolve (args : List Value) (i : Nat) : Value :=
  match i with
  | 0 => .null
  | k + 1 => (args.get? k).getD .null

/-- The value of an operand for a row and an argument list. -/
def Operand.eval (r : Subscription) (args : List Value) : Operand → Value
  | .col c => r.column c
  | .param i => resolve args i

/-- SQL `a <= b`: unknown (`none`) when an operand is `NULL`. Only dates and
numbers are ordered here; the repository compares nothing else by order. -/
def Value.sqlLe : Value → Value → Option Bool
  | .date a, .date b => some (decide (a ≤ b))
  | .num a, .num b => some (decide (a ≤ b))
  | _, _ => none

/-- SQL `a = b`: unknown (`none`) when an operand is `NULL`. -/
def Value.sqlEq : Value → Value → Option Bool
  | .date a, .date b => some (decide (a = b))
  | .num a, .num b => some (decide (a = b))
  | .uuid a, .uuid b => some (decide (a = b))
  | .text a, .text b => some (decide (a = b))
  | _, _ => none

/-- SQL three-valued `OR`. -/
def or3 : Option Bool → Option Bool → Option Bool
  | some true, _ => some true
  | _, some true => some true
  | some false, some false => some false
  | _, _ => none

/-- Three-valued evaluation of a conjunct on a row. -/
def Expr.eval (r : Subscription) (args : List Value) : Expr → Option Bool
  | .le a b => (a.eval r args).sqlLe (b.eval r args)
  | .ge a b => (b.eval r args).sqlLe (a.eval r args)
  | .eq a b => (a.eval r args).sqlEq (b.eval r args)
  | .isNull a => some (decide (a.eval r args = .null))
  | .or p q => or3 (p.eval r args) (q.eval r args)

/-- A row passes `WHERE 1=1 AND c₁ AND … AND cₙ` when every conjunct is true
(not false and not unknown). -/
def holds (conds : List Expr) (args : List Value) (r : Subscription) : Bool :=
  conds.all (fun c => c.eval r args == some true)

/-! ## `GetSummary`: statement construction -/

/-- The state of the statement builders: the conjuncts appended so far, the
bound arguments and the running placeholder position `argPos`. -/
structure Builder where
  conds : List Expr
  args : List Value
  argPos : Nat
  deriving DecidableEq

/-- The builder at the start of `List` and `GetSummary`: `WHERE 1=1`, no
arguments, `argPos := 1`. -/
def Builder.init : Builder := { conds := [], args := [], argPos := 1 }

/-- The date branch of `GetSummary` (the `if / else if / else if` on
`req.StartDate` and `req.EndDate`). -/
def summaryDateFilter (req : SummaryRequest) (b : Builder) : Builder :=
  match req.StartDate, req.EndDate with
  | some sd, some ed =>
    { conds := b.conds ++
        [.le (.col .start_date) (.param b.argPos),
         .or (.isNull (.col .end_date)) (.ge (.col .end_date) (.param (b.argPos + 1)))],
      args := b.args ++ [.date ed, .date sd],
      argPos := b.argPos + 2 }
  | some sd, none =>
    { conds := b.conds ++
        [.or (.isNull (.col .end_date)) (.ge (.col .end_date) (.param b.argPos))],
      args := b.args ++ [.date sd],
      argPos := b.argPos + 1 }
  | none, some ed =>
    { conds := b.conds ++ [.le (.col .start_date) (.param b.argPos)],
      args := b.args ++ [.date ed],
      argPos := b.argPos + 1 }
  | none, none => b

/-- The `user_id` filter shared by `List` and `GetSummary`. -/
def userFilter (userID : Option UUID) (b : Builder) : Builder :=
  match userID with
  | some u =>
    { conds := b.conds ++ [.eq (.col .user_id) (.param b.argPos)],
      args := b.args ++ [.uuid u],
      argPos := b.argPos + 1 }
  | none => b

/-- The `service_name` filter of `GetSummary`; `argPos` is not advanced after
the last filter. -/
def summaryServiceFilter (serviceName : Option String) (b : Builder) : Builder :=
  match serviceName with
  | some s =>
    { conds := b.conds ++ [.eq (.col .service_name) (.param b.argPos)],
      args := b.args ++ [.text s],
      argPos := b.argPos }
  | none => b

/-- The conjuncts and arguments `GetSummary` has built when it runs the
statement. -/
def summaryBuilder (req : SummaryRequest) : Builder :=
  summaryServiceFilter req.ServiceName
    (userFilter req.UserID (summaryDateFilter req Builder.init))

/-- The statement text of `GetSummary`. -/
def summaryQuery (req : SummaryRequest) : String :=
  "SELECT COALESCE(SUM(price), 0) as total_cost FROM subscriptions WHERE 1=1" ++
    whereSql (summaryBuilder req).conds

/-- The date conjuncts of the `GetSummary` statement. -/
def summaryDateConds (req : SummaryRequest) : List Expr :=
  (summaryDateFilter req Builder.init).conds

/-- The date predicate of the `GetSummary` statement on a row, its
placeholders resolved against the arguments bound to the whole statement. -/
def summaryDatePredicate (req : SummaryRequest) (r : Subscription) : Bool :=
  holds (summaryDateConds req) (summaryBuilder req).args r

/-! ## The store -/

/-- The rows of the `subscriptions` table. -/
abbrev Store := List Subscription

/-- The uniqueness triple `(user_id, service_name, start_date)`. -/
def Subscription.triple (r : Subscription) : UUID × String × Date :=
  (r.UserID, r.ServiceName, r.StartDate)

/-- No two rows of the store share the `(user_id, service_name, start_date)`
triple. -/
def UniqueTriples (db : Store) : Prop :=
  db.Pairwise (fun a b => a.triple ≠ b.triple)

instance (db : Store) : Decidable (UniqueTriples db) := by
  unfold UniqueTriples; infer_instance

/-- What the store connection contributes to one repository call besides the
rows: the server clock, the identifier the `id` default generates, and whether
a store call fails on its own account (lost connection, cancelled context, a
concurrent writer, a value that cannot be scanned). `fault` is the error of the
first store call of the operation, `fault2` of the second one (the `INSERT` of
`Create`, `RowsAffected` of `Update` and `Delete`, `Scan` of a row in `List`);
`none` means the call is carried out on the rows. -/
structure Env where
  now : Timestamp
  newID : UUID
  fault : Option String
  fault2 : Option String
  deriving DecidableEq

/-- A connection on which every store call is carried out. -/
def Env.healthy (now : Timestamp) (newID : UUID) : Env :=
  { now := now, newID := newID, fault := none, fault2 := none }

/-- Modelled from the spec: the schema (not part of the sources) declares a
uniqueness constraint over `(user_id, service_name, start_date)`; this is the
message of the store when a statement violates it. -/
def uniqueViolation : String :=
  "duplicate key value violates unique constraint " ++
    "\"subscriptions_user_id_service_name_start_date_key\""

/-- Modelled from the spec: the schema declares `id` a unique key; this is the
message of the store when an insert repeats an identifier. -/
def keyViolation : String :=
  "duplicate key value violates unique constraint \"subscriptions_pkey\""

/-- Modelled from the spec: the check of the uniqueness constraint after a
statement has written rows. It reports a violation when two rows of the new
table share the triple and at least one of them was written by the statement
(`touched`). -/
def violatesUnique (touched : Subscription → Bool) : Store → Bool
  | [] => false
  | r :: rest =>
    rest.any (fun r₂ => decide (r.triple = r₂.triple) && (touched r || touched r₂)) ||
      violatesUnique touched rest

/-! ## Errors of the repository -/

/-- The errors the repository returns, one constructor for each `fmt.Errorf`
of `subscription_repository.go`; `cause` is the message of the wrapped store
error. -/
inductive RepoError where
  /-- Message `"failed to check existing subscription: %w"` -/
  | checkExistingFailed (cause : String)
  /-- Message `"subscription already exists for user %s to service %s starting from %s"` -/
  | alreadyExistsFor (user : UUID) (service : String) (start : Date)
  /-- Message `"subscription already exists for this user and service"` -/
  | alreadyExists
  /-- Message `"failed to create subscription: %w"` -/
  | createFailed (cause : String)
  /-- Message `"subscription not found"` -/
  | notFound
  /-- Message `"failed to get subscription: %w"` -/
  | getFailed (cause : String)
  /-- Message `"failed to update subscription: %w"` -/
  | updateFailed (cause : String)
  /-- Message `"failed to get rows affected: %w"` -/
  | rowsAffectedFailed (cause : String)
  /-- Message `"failed to delete subscription: %w"` -/
  | deleteFailed (cause : String)
  /-- Message `"failed to list subscriptions: %w"` -/
  | listFailed (cause : String)
  /-- Message `"failed to scan subscription: %w"` -/
  | scanFailed (cause : String)
  /-- Message `"failed to calculate summary: %w"` -/
  | summaryFailed (cause : String)
  deriving DecidableEq

/-- The error taxonomy of the specification. -/
inductive Outcome where
  | Conflict
  | NotFound
  | StoreFailure
  deriving DecidableEq

/-- The class of a repository error: the two "already exists" errors are
`Conflict`, "not found" is `NotFound`, an error that wraps a store error is
`StoreFailure`. -/
def RepoError.outcome : RepoError → Outcome
  | .alreadyExistsFor _ _ _ => .Conflict
  | .alreadyExists => .Conflict
  | .notFound => .NotFound
  | .checkExistingFailed _ => .StoreFailure
  | .createFailed _ => .StoreFailure
  | .getFailed _ => .StoreFailure
  | .updateFailed _ => .StoreFailure
  | .rowsAffectedFailed _ => .StoreFailure
  | .deleteFailed _ => .StoreFailure
  | .listFailed _ => .StoreFailure
  | .scanFailed _ => .StoreFailure
  | .summaryFailed _ => .StoreFailure

/-- The store error a repository error wraps with `%w`, if any. -/
def RepoError.cause : RepoError → Option String
  | .checkExistingFailed c => some c
  | .createFailed c => some c
  | .getFailed c => some c
  | .updateFailed c => some c
  | .rowsAffectedFailed c => some c
  | .deleteFailed c => some c
  | .listFailed c => some c
  | .scanFailed c => some c
  | .summaryFailed c => some c
  | .alreadyExistsFor _ _ _ => none
  | .alreadyExists => none
  | .notFound => none

/-! ## `Create` -/

/-- The search of `strings.Contains` on the characters of the two strings. -/
def containsChars (sub : List Char) : List Char → Bool
  | [] => sub.isEmpty
  | c :: rest => sub.isPrefixOf (c :: rest) || containsChars sub rest

/-- The call `strings.Contains(s, substr)`. -/
def stringsContains (s substr : String) : Bool :=
  containsChars substr.toList s.toList

/-- The function `isDuplicateError` on the message of a non-nil error. -/
def isDuplicateError (errorString : String) : Bool :=
  stringsContains errorString "unique constraint" ||
    stringsContains errorString "duplicate key" ||
    stringsContains errorString "23505"

/-- The `WHERE` clause and arguments of `findExistingSubscription`:
`user_id = $1 AND service_name = $2 AND start_date = $3`. -/
def findExistingConds : List Expr :=
  [.eq (.col .user_id) (.param 1), .eq (.col .service_name) (.param 2),
   .eq (.col .start_date) (.param 3)]

/-- The method `findExistingSubscription`: the first matching row
(`LIMIT 1`), `none` for `sql.ErrNoRows`, or the store error. -/
def subscriptionRepo.findExistingSubscription (db : Store) (env : Env)
    (userID : UUID) (serviceName : String) (startDate : Date) :
    Except String (Option Subscription) :=
  match env.fault with
  | some e => .error e
  | none =>
    .ok ((db.filter (holds findExistingConds
      [.uuid userID, .text serviceName, .date startDate])).head?)

/-- Modelled from the spec: the defaults of `id`, `created_at` and
`updated_at` are declared in the schema, which is not part of the sources.
The row an `INSERT` of `sub` writes has the five inserted columns of `sub`,
the generated identifier, and the server time of the insert as both
timestamps. -/
def insertedRow (env : Env) (sub : Subscription) : Subscription :=
  { sub with ID := env.newID, CreatedAt := env.now, UpdatedAt := env.now }

/-- Modelled from the spec: the two uniqueness constraints are declared in the
schema, which is not part of the sources. The `INSERT … RETURNING id,
created_at, updated_at` of `Create` as the store carries it out: the statement
is rejected when the new row repeats an identifier or a triple, else the row
is added and returned. -/
def execInsert (db : Store) (env : Env) (sub : Subscription) :
    Except String (Subscription × Store) :=
  if db.any (fun r => decide (r.ID = (insertedRow env sub).ID)) then .error keyViolation
  else if db.any (fun r => decide (r.triple = (insertedRow env sub).triple)) then
    .error uniqueViolation
  else .ok (insertedRow env sub, db ++ [insertedRow env sub])

/-- The result of `QueryRowContext(…).Scan(…)` for the `INSERT` of `Create`:
the error of the connection if it fails, else what the store does with the
statement. -/
def runInsert (db : Store) (env : Env) (sub : Subscription) :
    Except String (Subscription × Store) :=
  match env.fault2 with
  | some e => .error e
  | none => execInsert db env sub

/-- The method `Create`: the outcome (the subscription with the identifier
and timestamps filled in, or the error) and the store after the call. -/
def subscriptionRepo.Create (db : Store) (env : Env) (sub : Subscription) :
    Except RepoError Subscription × Store :=
  match subscriptionRepo.findExistingSubscription db env sub.UserID sub.ServiceName
      sub.StartDate with
  | .error e => (.error (.checkExistingFailed e), db)
  | .ok (some _) =>
    (.error (.alreadyExistsFor sub.UserID sub.ServiceName sub.StartDate), db)
  | .ok none =>
    match runInsert db env sub with
    | .error e =>
      if isDuplicateError e then (.error .alreadyExists, db)
      else (.error (.createFailed e), db)
    | .ok (row, db') => (.ok row, db')

/-! ## `GetByID`, `Update`, `Delete` -/

/-- The method `GetByID`: the row `WHERE id = $1`, "not found" for `sql.ErrNoRows`. -/
def subscriptionRepo.GetByID (db : Store) (env : Env) (id : UUID) :
    Except RepoError Subscription :=
  match env.fault with
  | some e => .error (.getFailed e)
  | none =>
    match (db.filter (holds [.eq (.col .id) (.param 1)] [.uuid id])).head? with
    | some r => .ok r
    | none => .error .notFound

/-- SQL `COALESCE(a, b)` where `b` may itself be `NULL`: the first operand
that is not `NULL`. A nil pointer is bound as `NULL`. -/
def coalesce {α : Type} (a b : Option α) : Option α :=
  match a with
  | some x => some x
  | none => b

/-- SQL `COALESCE(a, b)` where `b` is a column that is never `NULL`. -/
def coalesceCol {α : Type} (a : Option α) (b : α) : α :=
  match a with
  | some x => x
  | none => b

/-- The `SET` clause of `Update` applied to one row at server time `now`
(`CURRENT_TIMESTAMP`). -/
def applyPatch (now : Timestamp) (req : UpdateSubscriptionRequest) (r : Subscription) :
    Subscription :=
  { r with
    ServiceName := coalesceCol req.ServiceName r.ServiceName,
    Price := coalesceCol req.Price r.Price,
    EndDate := coalesce req.EndDate r.EndDate,
    UpdatedAt := now }

/-- The `WHERE id = $4` of `Update` with its four arguments bound. -/
def updateMatches (id : UUID) (req : UpdateSubscriptionRequest) (r : Subscription) : Bool :=
  holds [.eq (.col .id) (.param 4)]
    [match req.ServiceName with | some s => .text s | none => .null,
     match req.Price with | some p => .num p | none => .null,
     match req.EndDate with | some d => .date d | none => .null,
     .uuid id] r

/-- The `UPDATE` statement as the store carries it out: the number of rows
affected and the new table, or the rejection by the uniqueness constraint
(`violatesUnique`, modelled from the spec). -/
def execUpdate (db : Store) (now : Timestamp) (id : UUID) (req : UpdateSubscriptionRequest) :
    Except String (Nat × Store) :=
  let db' := db.map (fun r => if updateMatches id req r then applyPatch now req r else r)
  if violatesUnique (updateMatches id req) db' then .error uniqueViolation
  else .ok ((db.filter (updateMatches id req)).length, db')

/-- The method `Update`: the outcome and the store after the call. -/
def subscriptionRepo.Update (db : Store) (env : Env) (id : UUID)
    (req : UpdateSubscriptionRequest) : Except RepoError Unit × Store :=
  match env.fault with
  | some e => (.error (.updateFailed e), db)
  | none =>
    match execUpdate db env.now id req with
    | .error e => (.error (.updateFailed e), db)
    | .ok (rows, db') =>
      match env.fault2 with
      | some e => (.error (.rowsAffectedFailed e), db')
      | none => if rows = 0 then (.error .notFound, db') else (.ok (), db')

/-- The `DELETE FROM subscriptions WHERE id = $1` statement as the store
carries it out: the number of rows affected and the new table. -/
def execDelete (db : Store) (id : UUID) : Nat × Store :=
  ((db.filter (holds [.eq (.col .id) (.param 1)] [.uuid id])).length,
   db.filter (fun r => !holds [.eq (.col .id) (.param 1)] [.uuid id] r))

/-- The method `Delete`: the outcome and the store after the call. -/
def subscriptionRepo.Delete (db : Store) (env : Env) (id : UUID) :
    Except RepoError Unit × Store :=
  match env.fault with
  | some e => (.error (.deleteFailed e), db)
  | none =>
    match execDelete db id with
    | (rows, db') =>
      match env.fault2 with
      | some e => (.error (.rowsAffectedFailed e), db')
      | none => if rows = 0 then (.error .notFound, db') else (.ok (), db')

/-! ## `GetSummary` and `List` -/

/-- The rows the `GetSummary` statement selects: those on which every conjunct
of its `WHERE` clause is true. -/
def summaryRows (db : Store) (req : SummaryRequest) : List Subscription :=
  db.filter (holds (summaryBuilder req).conds (summaryBuilder req).args)

/-- SQL `SUM` over a column: `NULL` when there is no row. For one or more rows
the addends are added here without rounding; what the store returns for them
depends on the SQL type of the `price` column (declared in the schema, which
is not part of the sources) and on floating-point rounding, neither of which
is represented. -/
def sqlSum : List Decimal → Option Decimal
  | [] => none
  | x :: xs => some (xs.foldl (fun acc y => acc + y) x)

/-- The method `GetSummary`: `COALESCE(SUM(price), 0)` over the selected rows,
scanned into `TotalCost`. The total of an empty selection is 0 as in the
code; the total of a non-empty selection stands for the unrounded sum (see
`sqlSum`), where the code holds a `float64`. -/
def subscriptionRepo.GetSummary (db : Store) (env : Env) (req : SummaryRequest) :
    Except RepoError SubscriptionSummary :=
  match env.fault with
  | some e => .error (.summaryFailed e)
  | none =>
    match coalesce (sqlSum ((summaryRows db req).map (fun r => r.Price))) (some 0) with
    | some totalCost => .ok { TotalCost := totalCost, Subscriptions := [] }
    | none => .error (.summaryFailed ("sql: Scan error on column index 0, name \"total_cost\": " ++
        "converting NULL to float64 is unsupported"))

/-- The `service_name` filter of `List`; `argPos` is advanced. -/
def listServiceFilter (serviceName : Option String) (b : Builder) : Builder :=
  match serviceName with
  | some s =>
    { conds := b.conds ++ [.eq (.col .service_name) (.param b.argPos)],
      args := b.args ++ [.text s],
      argPos := b.argPos + 1 }
  | none => b

/-- The conjuncts and arguments `List` has built when it runs the statement. -/
def listBuilder (userID : Option UUID) (serviceName : Option String) : Builder :=
  listServiceFilter serviceName (userFilter userID Builder.init)

/-- The statement text of `List`. -/
def listQuery (userID : Option UUID) (serviceName : Option String) : String :=
  "\n        SELECT id, service_name, price, user_id, start_date, end_date, created_at, updated_at\n        FROM subscriptions \n        WHERE 1=1\n    " ++
    whereSql (listBuilder userID serviceName).conds ++ " ORDER BY created_at DESC"

/-- The clause `ORDER BY created_at DESC`: the rows sorted so that later creation times
come first. The order among rows with equal `created_at` is left open by the
statement; here they keep their order in the table. -/
def orderByCreatedAtDesc (rows : List Subscription) : List Subscription :=
  rows.insertionSort (fun a b => a.CreatedAt ≥ b.CreatedAt)

/-- The method `List`: the selected rows in the order of the statement. -/
def subscriptionRepo.List (db : Store) (env : Env) (userID : Option UUID)
    (serviceName : Option String) : Except RepoError (List Subscription) :=
  match env.fault with
  | some e => .error (.listFailed e)
  | none =>
    match db.filter (holds (listBuilder userID serviceName).conds
        (listBuilder userID serviceName).args), env.fault2 with
    | _ :: _, some e => .error (.scanFailed e)
    | rows, _ => .ok (orderByCreatedAtDesc rows)

/-! ## The filters in the words of the specification -/

/-- The condition "`subscription.end_date` IS absent OR `subscription.end_date >=
query.start`". -/
def absentOrNotBefore (endDate : Option Date) (queryStart : Date) : Prop :=
  endDate = none ∨ ∃ e, endDate = some e ∧ e ≥ queryStart

instance : (endDate : Option Date) → (queryStart : Date) →
    Decidable (absentOrNotBefore endDate queryStart)
  | none, _ => isTrue (Or.inl rfl)
  | some e, qs => decidable_of_iff (e ≥ qs) (by simp [absentOrNotBefore])

/-- The overlap rule in the words of the specification, for the optional
start and end date of the query. -/
def overlapRule : Option Date → Option Date → Subscription → Prop
  | some qs, some qe, r => r.StartDate ≤ qe ∧ absentOrNotBefore r.EndDate qs
  | some qs, none, r => absentOrNotBefore r.EndDate qs
  | none, some qe, r => r.StartDate ≤ qe
  | none, none, _ => True

instance : (qs qe : Option Date) → (r : Subscription) → Decidable (overlapRule qs qe r)
  | some qs, some qe, r =>
    inferInstanceAs (Decidable (r.StartDate ≤ qe ∧ absentOrNotBefore r.EndDate qs))
  | some qs, none, r => inferInstanceAs (Decidable (absentOrNotBefore r.EndDate qs))
  | none, some qe, r => inferInstanceAs (Decidable (r.StartDate ≤ qe))
  | none, none, _ => isTrue trivial

/-- A present `user_id` filter equals the row's user; an absent one admits
every row. -/
def userMatches : Option UUID → Subscription → Prop
  | some u, r => r.UserID = u
  | none, _ => True

instance : (userID : Option UUID) → (r : Subscription) → Decidable (userMatches userID r)
  | some u, r => inferInstanceAs (Decidable (r.UserID = u))
  | none, _ => isTrue trivial

/-- A present `service_name` filter equals the row's service name; an absent
one admits every row. -/
def serviceMatches : Option String → Subscription → Prop
  | some s, r => r.ServiceName = s
  | none, _ => True

instance : (serviceName : Option String) → (r : Subscription) →
    Decidable (serviceMatches serviceName r)
  | some s, r => inferInstanceAs (Decidable (r.ServiceName = s))
  | none, _ => isTrue trivial

/-- The rows a summary request asks for in the words of the specification:
the overlap rule and every present user and service filter. -/
def summaryMatches (req : SummaryRequest) (r : Subscription) : Prop :=
  overlapRule req.StartDate req.EndDate r ∧ userMatches req.UserID r ∧
    serviceMatches req.ServiceName r

instance (req : SummaryRequest) (r : Subscription) : Decidable (summaryMatches req r) :=
  inferInstanceAs (Decidable (_ ∧ _ ∧ _))

/-- The rows a listing asks for in the words of the specification: every
present filter holds. -/
def listMatches (userID : Option UUID) (serviceName : Option String) (r : Subscription) :
    Prop :=
  userMatches userID r ∧ serviceMatches serviceName r

instance (userID : Option UUID) (serviceName : Option String) (r : Subscription) :
    Decidable (listMatches userID serviceName r) :=
  inferInstanceAs (Decidable (_ ∧ _))

/-- The row after a successful update in the words of the specification:
service name, price and end date take the value of the patch where it has one
and keep their value otherwise, `updated_at` is the server time, the other
columns keep their value. -/
def specUpdatedRow (now : Timestamp) (req : UpdateSubscriptionRequest) (r : Subscription) :
    Subscription :=
  { ID := r.ID,
    ServiceName := match req.ServiceName with
      | some s => s
      | none => r.ServiceName,
    Price := match req.Price with
      | some p => p
      | none => r.Price,
    UserID := r.UserID,
    StartDate := r.StartDate,
    EndDate := match req.EndDate with
      | some d => some d
      | none => r.EndDate,
    CreatedAt := r.CreatedAt,
    UpdatedAt := now }

/-- The patch with no field present. -/
def emptyPatch : UpdateSubscriptionRequest :=
  { ServiceName := none, Price := none, EndDate := none }

/-! ## Service façade (`internal/service/subscription_service.go`) -/

/-- The method `UpdateSubscription` of the service: `return s.repo.Update(ctx, id, req)`. -/
def subscriptionService.UpdateSubscription (db : Store) (env : Env) (id : UUID)
    (req : UpdateSubscriptionRequest) : Except RepoError Unit × Store :=
  subscriptionRepo.Update db env id req

/-- The method `DeleteSubscription` of the service: `return s.repo.Delete(ctx, id)`. -/
def subscriptionService.DeleteSubscription (db : Store) (env : Env) (id : UUID) :
    Except RepoError Unit × Store :=
  subscriptionRepo.Delete db env id

/-- The method `GetSubscription` of the service: `return s.repo.GetByID(ctx, id)`. -/
def subscriptionService.GetSubscription (db : Store) (env : Env) (id : UUID) :
    Except RepoError Subscription :=
  subscriptionRepo.GetByID db env id

/-! ## Handlers (`internal/handlers/subscriptions.go`) -/

/-- The constant `http.StatusOK`. -/
def StatusOK : Nat := 200

/-- The constant `http.StatusBadRequest`. -/
def StatusBadRequest : Nat := 400

/-- The constant `http.StatusNotFound`. -/
def StatusNotFound : Nat := 404

/-- The constant `http.StatusInternalServerError`. -/
def StatusInternalServerError : Nat := 500

/-- The body a handler writes with `c.JSON`: `gin.H{"error": …}`,
`gin.H{"message": …}` or a subscription. -/
inductive Body where
  | error (text : String)
  | message (text : String)
  | subscription (sub : Subscription)
  deriving DecidableEq

/-- The response a handler writes with `c.JSON(status, body)`. -/
structure Response where
  status : Nat
  body : Body
  deriving DecidableEq

/-- The handler `GetSubscription` of `GET /subscriptions/{id}`. `idParam` is
the result of `uuid.Parse(c.Param("id"))`, `none` when the path segment is not
a well-formed identifier. -/
def SubscriptionHandler.GetSubscription (db : Store) (env : Env) (idParam : Option UUID) :
    Response :=
  match idParam with
  | none => { status := StatusBadRequest, body := .error "Invalid subscription ID" }
  | some id =>
    match subscriptionService.GetSubscription db env id with
    | .error _ => { status := StatusNotFound, body := .error "Subscription not found" }
    | .ok subscription => { status := StatusOK, body := .subscription subscription }

/-- The handler `UpdateSubscription` of `PUT /subscriptions/{id}`: the
response and the store after the call. `idParam` is the result of
`uuid.Parse(c.Param("id"))`, `bound` the result of `c.ShouldBindJSON(&req)`,
`none` when the call returns an error. -/
def SubscriptionHandler.UpdateSubscription (db : Store) (env : Env) (idParam : Option UUID)
    (bound : Option UpdateSubscriptionRequest) : Response × Store :=
  match idParam with
  | none => ({ status := StatusBadRequest, body := .error "Invalid subscription ID" }, db)
  | some id =>
    match bound with
    | none => ({ status := StatusBadRequest, body := .error "Invalid request body" }, db)
    | some req =>
      match subscriptionService.UpdateSubscription db env id req with
      | (.error _, db') =>
        ({ status := StatusInternalServerError,
           body := .error "Failed to update subscription" }, db')
      | (.ok _, db') =>
        ({ status := StatusOK, body := .message "Subscription updated successfully" }, db')

/-- The handler `DeleteSubscription` of `DELETE /subscriptions/{id}`: the
response and the store after the call. `idParam` is the result of
`uuid.Parse(c.Param("id"))`. -/
def SubscriptionHandler.DeleteSubscription (db : Store) (env : Env) (idParam : Option UUID) :
    Response × Store :=
  match idParam with
  | none => ({ status := StatusBadRequest, body := .error "Invalid subscription ID" }, db)
  | some id =>
    match subscriptionService.DeleteSubscription db env id with
    | (.error _, db') =>
      ({ status := StatusInternalServerError,
         body := .error "Failed to delete subscription" }, db')
    | (.ok _, db') =>
      ({ status := StatusOK, body := .message "Subscription deleted successfully" }, db')

/-! ## Placeholders of a statement text -/

/-- The placeholders of a text in their order of appearance, read off the
characters: a `$` starts a placeholder and the decimal digits that follow it
are its position. `cur` is the position read so far while inside one. -/
def scanPlaceholders : Option Nat → List Char → List Nat
  | cur, [] => cur.toList
  | cur, c :: rest =>
    if c = '$' then cur.toList ++ scanPlaceholders (some 0) rest
    else if c.isDigit then
      match cur with
      | some n => scanPlaceholders (some (n * 10 + (c.toNat - 48))) rest
      | none => scanPlaceholders none rest
    else cur.toList ++ scanPlaceholders none rest

/-- The placeholders `$i` of a statement text, in their order of appearance. -/
def placeholdersOf (query : String) : List Nat :=
  scanPlaceholders none query.toList

/-! ## Positional rendering in the words of the specification -/

/-- A predicate with a hole for its placeholder. -/
abbrev Template := Operand → Expr

/-- The predicate `start_date <= $i`. -/
def startsNotAfter : Template := fun p => .le (.col .start_date) p

/-- The predicate `(end_date IS NULL OR end_date >= $i)`. -/
def endsNotBefore : Template :=
  fun p => .or (.isNull (.col .end_date)) (.ge (.col .end_date) p)

/-- The predicate `user_id = $i`. -/
def userIs : Template := fun p => .eq (.col .user_id) p

/-- The predicate `service_name = $i`. -/
def serviceIs : Template := fun p => .eq (.col .service_name) p

/-- The filters of a summary request in the fixed order date, user, service,
each with the value it binds; with both dates the query end date is compared
with `start_date` first and the query start date with `end_date` second. -/
def specSummaryFilters (req : SummaryRequest) : List (Template × Value) :=
  (match req.StartDate, req.EndDate with
    | some qs, some qe => [(startsNotAfter, .date qe), (endsNotBefore, .date qs)]
    | some qs, none => [(endsNotBefore, .date qs)]
    | none, some qe => [(startsNotAfter, .date qe)]
    | none, none => []) ++
  (match req.UserID with
    | some u => [(userIs, .uuid u)]
    | none => []) ++
  (match req.ServiceName with
    | some s => [(serviceIs, .text s)]
    | none => [])

/-- The filters of a listing in the fixed order user, service, each with the
value it binds. -/
def specListFilters (userID : Option UUID) (serviceName : Option String) :
    List (Template × Value) :=
  (match userID with
    | some u => [(userIs, .uuid u)]
    | none => []) ++
  (match serviceName with
    | some s => [(serviceIs, .text s)]
    | none => [])

/-- The filters rendered with placeholders numbered from `pos` in order, and
the values in the same order. -/
def renderFrom (pos : Nat) : List (Template × Value) → List Expr × List Value
  | [] => ([], [])
  | (t, v) :: rest =>
    (t (.param pos) :: (renderFrom (pos + 1) rest).1, v :: (renderFrom (pos + 1) rest).2)

/-- The filters rendered positionally: the `i`-th filter carries `$i` and its
value is the `i`-th argument. -/
def renderPositional (filters : List (Template × Value)) : List Expr × List Value :=
  renderFrom 1 filters

/-- Which filters of a summary request are present. -/
def SummaryRequest.presence (req : SummaryRequest) : Bool × Bool × Bool × Bool :=
  (req.StartDate.isSome, req.EndDate.isSome, req.UserID.isSome, req.ServiceName.isSome)

/-- A summary request with the given filters present, each with a fixed
value. -/
def SummaryRequest.ofPresence (p : Bool × Bool × Bool × Bool) : SummaryRequest :=
  { StartDate := if p.1 then some 0 else none,
    EndDate := if p.2.1 then some 0 else none,
    UserID := if p.2.2.1 then some 0 else none,
    ServiceName := if p.2.2.2 then some "" else none }

/-! ## Lemmas on statements -/

theorem or3_eq_true (a b : Option Bool) :
    or3 a b = some true ↔ a = some true ∨ b = some true := by
  rcases a with _ | _ | _ <;> rcases b with _ | _ | _ <;> simp [or3]

/-- C1: the date predicate built by `GetSummary`, with each placeholder `$i`
resolved to `args[i-1]`, holds of a row exactly when the overlap rule of the
specification holds. -/
theorem summaryDatePredicate_iff_overlapRule (req : SummaryRequest) (r : Subscription) :
    summaryDatePredicate req r = true ↔ overlapRule req.StartDate req.EndDate r := by
  obtain ⟨sd, ed, u, s⟩ := req
  obtain ⟨id, sn, p, uid, st, en, ca, ua⟩ := r
  cases sd <;> cases ed <;> cases u <;> cases s <;> cases en <;>
    simp [summaryDatePredicate, summaryDateConds, summaryBuilder, summaryDateFilter,
      userFilter, summaryServiceFilter, Builder.init, holds, overlapRule, absentOrNotBefore,
      Expr.eval, Operand.eval, resolve, Subscription.column, Value.sqlLe, or3_eq_true]

/-! ## Lemmas: what each `WHERE` clause selects -/

theorem holds_findExisting (u : UUID) (sn : String) (d : Date) (r : Subscription) :
    holds findExistingConds [.uuid u, .text sn, .date d] r = true ↔ r.triple = (u, sn, d) := by
  simp [holds, findExistingConds, Expr.eval, Operand.eval, resolve, Subscription.column,
    Value.sqlEq, Subscription.triple, Prod.ext_iff]

theorem holds_id (id : UUID) (r : Subscription) :
    holds [.eq (.col .id) (.param 1)] [.uuid id] r = true ↔ r.ID = id := by
  simp [holds, Expr.eval, Operand.eval, resolve, Subscription.column, Value.sqlEq]

theorem updateMatches_iff (id : UUID) (req : UpdateSubscriptionRequest) (r : Subscription) :
    updateMatches id req r = true ↔ r.ID = id := by
  simp [updateMatches, holds, Expr.eval, Operand.eval, resolve, Subscription.column,
    Value.sqlEq]

theorem holds_summary (req : SummaryRequest) (r : Subscription) :
    holds (summaryBuilder req).conds (summaryBuilder req).args r = true ↔
      summaryMatches req r := by
  obtain ⟨sd, ed, u, s⟩ := req
  obtain ⟨id, sn, p, uid, st, en, ca, ua⟩ := r
  cases sd <;> cases ed <;> cases u <;> cases s <;> cases en <;>
    simp [summaryMatches, userMatches, serviceMatches, summaryBuilder, summaryDateFilter,
      userFilter, summaryServiceFilter, Builder.init, holds, overlapRule, absentOrNotBefore,
      Expr.eval, Operand.eval, resolve, Subscription.column, Value.sqlLe, Value.sqlEq,
      or3_eq_true, and_assoc]

theorem holds_list (userID : Option UUID) (serviceName : Option String) (r : Subscription) :
    holds (listBuilder userID serviceName).conds (listBuilder userID serviceName).args r = true ↔
      listMatches userID serviceName r := by
  cases userID <;> cases serviceName <;>
    simp [listMatches, userMatches, serviceMatches, listBuilder, userFilter,
      listServiceFilter, Builder.init, holds, Expr.eval, Operand.eval, resolve,
      Subscription.column, Value.sqlEq]

theorem findExisting_some_of_mem (db : Store) (env : Env) (hf : env.fault = none)
    (sub : Subscription) (hdup : ∃ r ∈ db, r.triple = sub.triple) :
    ∃ r, subscriptionRepo.findExistingSubscription db env sub.UserID sub.ServiceName
      sub.StartDate = .ok (some r) := by
  obtain ⟨r, hr, ht⟩ := hdup
  have hmem : r ∈ db.filter (holds findExistingConds
      [.uuid sub.UserID, .text sub.ServiceName, .date sub.StartDate]) := by
    rw [List.mem_filter]
    exact ⟨hr, (holds_findExisting _ _ _ r).2 ht⟩
  simp only [subscriptionRepo.findExistingSubscription, hf]
  cases hfl : db.filter (holds findExistingConds
      [.uuid sub.UserID, .text sub.ServiceName, .date sub.StartDate]) with
  | nil => rw [hfl] at hmem; cases hmem
  | cons x xs => exact ⟨x, rfl⟩

theorem findExisting_none_iff (db : Store) (env : Env) (hf : env.fault = none)
    (sub : Subscription) :
    subscriptionRepo.findExistingSubscription db env sub.UserID sub.ServiceName
      sub.StartDate = .ok none ↔ ∀ r ∈ db, r.triple ≠ sub.triple := by
  simp only [subscriptionRepo.findExistingSubscription, hf]
  constructor
  · intro h r hr ht
    have hmem : r ∈ db.filter (holds findExistingConds
        [.uuid sub.UserID, .text sub.ServiceName, .date sub.StartDate]) := by
      rw [List.mem_filter]
      exact ⟨hr, (holds_findExisting _ _ _ r).2 ht⟩
    cases hfl : db.filter (holds findExistingConds
        [.uuid sub.UserID, .text sub.ServiceName, .date sub.StartDate]) with
    | nil => rw [hfl] at hmem; cases hmem
    | cons x xs => rw [hfl] at h; simp at h
  · intro h
    have : db.filter (holds findExistingConds
        [.uuid sub.UserID, .text sub.ServiceName, .date sub.StartDate]) = [] := by
      rw [List.filter_eq_nil_iff]
      intro r hr hh
      exact h r hr ((holds_findExisting _ _ _ r).1 hh)
    rw [this]; rfl

/-! ## `Create` rejects a repeated triple -/

/-- C2: when a row of the store has the `(user_id, service_name, start_date)`
triple of the subscription passed to `Create` and the store answers the
existence check, `Create` fails with the "already exists" error of the
pre-check, which is a `Conflict`, whatever the price, the end date and the
rest of the connection state are; and in every case, also when the check
itself fails, the store is left as it was. -/
theorem create_existing_triple_conflict (db : Store) (sub : Subscription)
    (hdup : ∃ r ∈ db, r.triple = sub.triple) :
    (∀ env : Env, env.fault = none →
      subscriptionRepo.Create db env sub =
        (.error (.alreadyExistsFor sub.UserID sub.ServiceName sub.StartDate), db)) ∧
    (RepoError.alreadyExistsFor sub.UserID sub.ServiceName sub.StartDate).outcome =
      Outcome.Conflict ∧
    (∀ env : Env, (subscriptionRepo.Create db env sub).2 = db) := by
  have h1 : ∀ env : Env, env.fault = none →
      subscriptionRepo.Create db env sub =
        (.error (.alreadyExistsFor sub.UserID sub.ServiceName sub.StartDate), db) := by
    intro env hf
    obtain ⟨r, hr⟩ := findExisting_some_of_mem db env hf sub hdup
    simp [subscriptionRepo.Create, hr]
  refine ⟨h1, rfl, ?_⟩
  intro env
  cases hf : env.fault with
  | none => rw [h1 env hf]
  | some e => simp [subscriptionRepo.Create, subscriptionRepo.findExistingSubscription, hf]

/-- Witness of C2: a second subscription with the triple of a stored row, a
different price and a different end date. -/
theorem create_existing_triple_conflict_witness :
    subscriptionRepo.Create [⟨1, "netflix", 10, 7, 100, some 120, 5, 5⟩] (Env.healthy 9 2)
        ⟨0, "netflix", 15, 7, 100, none, 0, 0⟩ =
      (.error (.alreadyExistsFor 7 "netflix" 100), [⟨1, "netflix", 10, 7, 100, some 120, 5, 5⟩]) :=
  (create_existing_triple_conflict [⟨1, "netflix", 10, 7, 100, some 120, 5, 5⟩]
    ⟨0, "netflix", 15, 7, 100, none, 0, 0⟩
    ⟨⟨1, "netflix", 10, 7, 100, some 120, 5, 5⟩, by simp, by decide⟩).1 (Env.healthy 9 2) rfl

/-! ## The uniqueness constraint -/

theorem violatesUnique_false_of_unique (touched : Subscription → Bool) (db : Store)
    (h : UniqueTriples db) : violatesUnique touched db = false := by
  induction db with
  | nil => rfl
  | cons a l ih =>
    have h' := List.pairwise_cons.1 h
    simp only [violatesUnique, ih h'.2, Bool.or_false, List.any_eq_false, Bool.and_eq_true,
      decide_eq_true_eq, not_and]
    intro b hb hab
    exact absurd hab (h'.1 b hb)

theorem applyPatch_eq_spec (now : Timestamp) (req : UpdateSubscriptionRequest)
    (r : Subscription) : applyPatch now req r = specUpdatedRow now req r := by
  obtain ⟨sn, pr, ed⟩ := req
  cases sn <;> cases pr <;> cases ed <;> rfl

theorem updated_table_eq (db : Store) (now : Timestamp) (id : UUID)
    (req : UpdateSubscriptionRequest) :
    db.map (fun r => if updateMatches id req r then applyPatch now req r else r) =
      db.map (fun r => if r.ID = id then specUpdatedRow now req r else r) := by
  apply List.map_congr_left
  intro r _
  by_cases h : r.ID = id
  · simp [(updateMatches_iff id req r).2 h, h, applyPatch_eq_spec]
  · have : updateMatches id req r = false := by
      cases hm : updateMatches id req r with
      | false => rfl
      | true => exact absurd ((updateMatches_iff id req r).1 hm) h
    simp [this, h]

theorem filter_length_eq_zero_iff (p : Subscription → Bool) (db : Store) :
    (db.filter p).length = 0 ↔ ∀ r ∈ db, p r = false := by
  rw [List.length_eq_zero, List.filter_eq_nil_iff]
  simp

/-- The method `Update` either leaves the store as it was or writes the
patched table. -/
theorem update_store_cases (db : Store) (env : Env) (id : UUID)
    (req : UpdateSubscriptionRequest) :
    (subscriptionRepo.Update db env id req).2 = db ∨
      (violatesUnique (updateMatches id req)
          (db.map (fun r => if r.ID = id then specUpdatedRow env.now req r else r)) = false ∧
        (subscriptionRepo.Update db env id req).2 =
          db.map (fun r => if r.ID = id then specUpdatedRow env.now req r else r)) := by
  unfold subscriptionRepo.Update execUpdate
  rw [updated_table_eq]
  cases env.fault with
  | some e => exact Or.inl rfl
  | none =>
    cases hv : violatesUnique (updateMatches id req)
        (db.map (fun r => if r.ID = id then specUpdatedRow env.now req r else r)) with
    | true => exact Or.inl (by simp [hv])
    | false =>
      refine Or.inr ⟨rfl, ?_⟩
      cases env.fault2 with
      | some e => simp [hv]
      | none => by_cases h0 : (db.filter (updateMatches id req)).length = 0 <;> simp [hv, h0]

/-! ## `Update`: frame and effect -/

/-- C3: a successful `Update(id, patch)` leaves exactly the table in which
every row with that identifier has service name, price and end date replaced
by the patch's value where the patch has one and kept otherwise, `updated_at`
set to the server time and every other column kept, and in which every other
row is as before. In particular the empty patch, which succeeds on an existing
row of a store that satisfies the uniqueness constraint when the store carries
out the statement, changes `updated_at` and nothing else. -/
theorem update_success_effect (db : Store) (env : Env) (id : UUID)
    (req : UpdateSubscriptionRequest) :
    (∀ db' : Store, subscriptionRepo.Update db env id req = (.ok (), db') →
      (∃ r ∈ db, r.ID = id) ∧
      db' = db.map (fun r => if r.ID = id then specUpdatedRow env.now req r else r)) ∧
    (req = emptyPatch → env.fault = none → env.fault2 = none → UniqueTriples db →
      (∃ r ∈ db, r.ID = id) →
      subscriptionRepo.Update db env id req =
        (.ok (), db.map (fun r => if r.ID = id then { r with UpdatedAt := env.now } else r))) := by
  constructor
  · intro db' h
    unfold subscriptionRepo.Update execUpdate at h
    rw [updated_table_eq] at h
    cases hf : env.fault with
    | some e => simp [hf] at h
    | none =>
      cases hv : violatesUnique (updateMatches id req)
          (db.map (fun r => if r.ID = id then specUpdatedRow env.now req r else r)) with
      | true => simp [hf, hv] at h
      | false =>
        cases hf2 : env.fault2 with
        | some e => simp [hf, hv, hf2] at h
        | none =>
          by_cases h0 : (db.filter (updateMatches id req)).length = 0
          · simp [hf, hv, hf2, h0] at h
          · simp only [hf, hv, hf2, h0, if_false, Bool.false_eq_true, Prod.mk.injEq,
              true_and] at h
            refine ⟨?_, h.symm⟩
            rw [filter_length_eq_zero_iff] at h0
            push_neg at h0
            obtain ⟨r, hr, hm⟩ := h0
            exact ⟨r, hr, (updateMatches_iff id req r).1 (by simpa using hm)⟩
  · intro hreq hf hf2 hu hex
    subst hreq
    have htab : db.map (fun r => if r.ID = id then specUpdatedRow env.now emptyPatch r else r) =
        db.map (fun r => if r.ID = id then { r with UpdatedAt := env.now } else r) := by
      apply List.map_congr_left
      intro r _
      by_cases h : r.ID = id <;> simp [h, specUpdatedRow, emptyPatch]
    have hu' : UniqueTriples
        (db.map (fun r => if r.ID = id then { r with UpdatedAt := env.now } else r)) := by
      unfold UniqueTriples
      rw [List.pairwise_map]
      refine List.Pairwise.imp ?_ hu
      intro a b hab
      by_cases ha : a.ID = id <;> by_cases hb : b.ID = id <;>
        simpa [ha, hb, Subscription.triple] using hab
    have h0 : (db.filter (updateMatches id emptyPatch)).length ≠ 0 := by
      rw [Ne, filter_length_eq_zero_iff]
      push_neg
      obtain ⟨r, hr, hid⟩ := hex
      exact ⟨r, hr, by simp [(updateMatches_iff id emptyPatch r).2 hid]⟩
    have hv := violatesUnique_false_of_unique (updateMatches id emptyPatch) _ hu'
    unfold subscriptionRepo.Update execUpdate
    rw [updated_table_eq, htab]
    simp [hf, hf2, h0, hv]

/-- Witness of C3: a patch that sets the price only, on a store of two rows. -/
theorem update_success_effect_witness :
    subscriptionRepo.Update
        [⟨1, "netflix", 10, 7, 100, some 120, 5, 5⟩, ⟨2, "hbo", 12, 7, 100, none, 6, 6⟩]
        (Env.healthy 9 3) 2 ⟨none, some 20, none⟩ =
      (.ok (), [⟨1, "netflix", 10, 7, 100, some 120, 5, 5⟩, ⟨2, "hbo", 20, 7, 100, none, 6, 9⟩]) ∧
    [(⟨1, "netflix", 10, 7, 100, some 120, 5, 5⟩ : Subscription),
        ⟨2, "hbo", 20, 7, 100, none, 6, 9⟩] =
      List.map (fun r => if r.ID = 2 then specUpdatedRow 9 ⟨none, some 20, none⟩ r else r)
        [⟨1, "netflix", 10, 7, 100, some 120, 5, 5⟩, ⟨2, "hbo", 12, 7, 100, none, 6, 6⟩] :=
  ⟨by decide,
   ((update_success_effect
      [⟨1, "netflix", 10, 7, 100, some 120, 5, 5⟩, ⟨2, "hbo", 12, 7, 100, none, 6, 6⟩]
      (Env.healthy 9 3) 2 ⟨none, some 20, none⟩).1 _ (by decide)).2⟩

/-! ## The overlap rule at its boundaries -/

/-- C6: when the existence check of `Create` finds no row and the insert then
fails with a store error that `isDuplicateError` recognises as a uniqueness
violation, `Create` returns the "already exists" error, which is in the same
class `Conflict` as the rejection by the pre-check, wraps no store error, and
is not the generic "failed to create subscription" error around the store
error. -/
theorem create_insert_violation_conflict (db : Store) (env : Env) (sub : Subscription)
    (e : String)
    (hcheck : subscriptionRepo.findExistingSubscription db env sub.UserID sub.ServiceName
      sub.StartDate = .ok none)
    (hins : runInsert db env sub = .error e) (hdup : isDuplicateError e = true) :
    subscriptionRepo.Create db env sub = (.error .alreadyExists, db) ∧
    RepoError.alreadyExists.outcome = Outcome.Conflict ∧
    RepoError.alreadyExists.outcome =
      (RepoError.alreadyExistsFor sub.UserID sub.ServiceName sub.StartDate).outcome ∧
    RepoError.alreadyExists.cause = none ∧
    (subscriptionRepo.Create db env sub).1 ≠ .error (.createFailed e) := by
  have h : subscriptionRepo.Create db env sub = (.error .alreadyExists, db) := by
    simp [subscriptionRepo.Create, hcheck, hins, hdup]
  refine ⟨h, rfl, rfl, rfl, ?_⟩
  rw [h]
  simp

/-- Witness of C6: the check passes on an empty store and the insert fails
with the store's uniqueness violation, as after a concurrent insert of the
same triple. -/
theorem create_insert_violation_conflict_witness :
    subscriptionRepo.Create [] ⟨9, 2, none, some uniqueViolation⟩
        ⟨0, "netflix", 15, 7, 100, none, 0, 0⟩ = (.error .alreadyExists, []) :=
  (create_insert_violation_conflict [] ⟨9, 2, none, some uniqueViolation⟩
    ⟨0, "netflix", 15, 7, 100, none, 0, 0⟩ uniqueViolation rfl rfl (by decide)).1

/-! ## The uniqueness invariant -/

theorem create_store_cases (db : Store) (env : Env) (sub : Subscription) :
    (subscriptionRepo.Create db env sub).2 = db ∨
      ∃ row : Subscription, (∀ r ∈ db, r.triple ≠ row.triple) ∧
        (subscriptionRepo.Create db env sub).2 = db ++ [row] := by
  unfold subscriptionRepo.Create
  cases subscriptionRepo.findExistingSubscription db env sub.UserID sub.ServiceName
      sub.StartDate with
  | error e => exact Or.inl rfl
  | ok found =>
    cases found with
    | some r => exact Or.inl rfl
    | none =>
      simp only [runInsert]
      cases env.fault2 with
      | some e => by_cases hd : isDuplicateError e = true <;> simp [hd]
      | none =>
        simp only [execInsert]
        by_cases hk : db.any (fun r => decide (r.ID = (insertedRow env sub).ID)) = true
        · by_cases hd : isDuplicateError keyViolation = true <;> simp [hk, hd]
        · by_cases ht : db.any (fun r => decide (r.triple = (insertedRow env sub).triple)) = true
          · by_cases hd : isDuplicateError uniqueViolation = true <;> simp [hk, ht, hd]
          · refine Or.inr ⟨insertedRow env sub, ?_, ?_⟩
            · intro r hr heq
              apply ht
              rw [List.any_eq_true]
              exact ⟨r, hr, by simpa using heq⟩
            · simp [hk, ht]

theorem unique_append_row (db : Store) (row : Subscription) (h : UniqueTriples db)
    (hrow : ∀ r ∈ db, r.triple ≠ row.triple) : UniqueTriples (db ++ [row]) := by
  unfold UniqueTriples
  rw [List.pairwise_append]
  refine ⟨h, List.pairwise_singleton _ _, ?_⟩
  intro a ha b hb
  rw [List.mem_singleton] at hb
  subst hb
  exact hrow a ha

theorem unique_of_not_violates (id : UUID) (req : UpdateSubscriptionRequest)
    (now : Timestamp) (db : Store) (h : UniqueTriples db)
    (hv : violatesUnique (updateMatches id req)
      (db.map (fun r => if r.ID = id then specUpdatedRow now req r else r)) = false) :
    UniqueTriples (db.map (fun r => if r.ID = id then specUpdatedRow now req r else r)) := by
  induction db with
  | nil => exact List.Pairwise.nil
  | cons a l ih =>
    have h' := List.pairwise_cons.1 h
    simp only [List.map_cons, violatesUnique, Bool.or_eq_false_iff] at hv
    unfold UniqueTriples
    rw [List.map_cons, List.pairwise_cons]
    refine ⟨?_, ih h'.2 hv.2⟩
    intro b' hb' heq
    obtain ⟨b, hb, rfl⟩ := List.mem_map.1 hb'
    have hany := hv.1
    rw [List.any_eq_false] at hany
    have hb2 := hany _ hb'
    simp only [heq, decide_True, Bool.true_and, Bool.or_eq_true, not_or,
      Bool.not_eq_true] at hb2
    have ha_id : a.ID ≠ id := by
      intro hid
      have : updateMatches id req (if a.ID = id then specUpdatedRow now req a else a) = true :=
        (updateMatches_iff id req _).2 (by simp [hid, specUpdatedRow])
      rw [this] at hb2
      exact Bool.noConfusion hb2.1
    have hb_id : b.ID ≠ id := by
      intro hid
      have : updateMatches id req (if b.ID = id then specUpdatedRow now req b else b) = true :=
        (updateMatches_iff id req _).2 (by simp [hid, specUpdatedRow])
      rw [this] at hb2
      exact Bool.noConfusion hb2.2
    simp only [ha_id, hb_id, if_false] at heq
    exact h'.1 b hb heq

theorem delete_store_cases (db : Store) (env : Env) (id : UUID) :
    (subscriptionRepo.Delete db env id).2 = db ∨
      (subscriptionRepo.Delete db env id).2 = db.filter (fun r => decide (r.ID ≠ id)) := by
  have hfilter : db.filter (fun r => !holds [.eq (.col .id) (.param 1)] [.uuid id] r) =
      db.filter (fun r => decide (r.ID ≠ id)) := by
    apply List.filter_congr
    intro r _
    by_cases h : r.ID = id
    · simp [(holds_id id r).2 h, h]
    · have : holds [.eq (.col .id) (.param 1)] [.uuid id] r = false := by
        cases hm : holds [.eq (.col .id) (.param 1)] [.uuid id] r with
        | false => rfl
        | true => exact absurd ((holds_id id r).1 hm) h
      simp [this, h]
  unfold subscriptionRepo.Delete execDelete
  rw [hfilter]
  cases env.fault with
  | some e => exact Or.inl rfl
  | none =>
    right
    cases env.fault2 with
    | some e => rfl
    | none =>
      by_cases h0 : (db.filter (holds [.eq (.col .id) (.param 1)] [.uuid id])).length = 0 <;>
        simp [h0]

/-- C7: "no two rows share the `(user_id, service_name, start_date)` triple"
is an invariant of the repository: from a store that satisfies it, the store
after `Create`, after `Update` (with any patch, also one that changes the
service name) and after `Delete` satisfies it, whatever the outcome of the
operation and whatever the connection does. -/
theorem uniqueTriples_invariant (db : Store) (env : Env) (h : UniqueTriples db) :
    (∀ sub : Subscription, UniqueTriples (subscriptionRepo.Create db env sub).2) ∧
    (∀ (id : UUID) (req : UpdateSubscriptionRequest),
      UniqueTriples (subscriptionRepo.Update db env id req).2) ∧
    (∀ id : UUID, UniqueTriples (subscriptionRepo.Delete db env id).2) := by
  refine ⟨?_, ?_, ?_⟩
  · intro sub
    rcases create_store_cases db env sub with hc | ⟨row, hrow, hc⟩
    · rw [hc]; exact h
    · rw [hc]; exact unique_append_row db row h hrow
  · intro id req
    rcases update_store_cases db env id req with hc | ⟨hv, hc⟩
    · rw [hc]; exact h
    · rw [hc]; exact unique_of_not_violates id req env.now db h hv
  · intro id
    rcases delete_store_cases db env id with hc | hc
    · rw [hc]; exact h
    · rw [hc]; exact List.Pairwise.filter _ h

/-- Witness of C7: on a store of two rows that differ in the service name
only, the update of one service name to the other is rejected and the store
keeps two distinct triples. -/
theorem uniqueTriples_invariant_witness :
    UniqueTriples (subscriptionRepo.Update
      [⟨1, "netflix", 10, 7, 100, some 120, 5, 5⟩, ⟨2, "hbo", 12, 7, 100, none, 6, 6⟩]
      (Env.healthy 9 3) 2 ⟨some "netflix", none, none⟩).2 :=
  (uniqueTriples_invariant
    [⟨1, "netflix", 10, 7, 100, some 120, 5, 5⟩, ⟨2, "hbo", 12, 7, 100, none, 6, 6⟩]
    (Env.healthy 9 3) (by decide)).2.1 2 ⟨some "netflix", none, none⟩

/-! ## `NotFound` -/

theorem violatesUnique_false_of_untouched (touched : Subscription → Bool) (db : Store)
    (h : ∀ r ∈ db, touched r = false) : violatesUnique touched db = false := by
  induction db with
  | nil => rfl
  | cons a l ih =>
    have ha : touched a = false := h a (List.mem_cons_self _ _)
    have hl : ∀ r ∈ l, touched r = false := fun r hr => h r (List.mem_cons_of_mem _ hr)
    simp only [violatesUnique, ih hl, Bool.or_false, List.any_eq_false, Bool.and_eq_true,
      decide_eq_true_eq, not_and, ha, Bool.false_or]
    intro b hb _
    simp [hl b hb]

theorem updateMatches_false_of_absent (db : Store) (id : UUID)
    (req : UpdateSubscriptionRequest) (h : ∀ r ∈ db, r.ID ≠ id) :
    ∀ r ∈ db, updateMatches id req r = false := by
  intro r hr
  cases hm : updateMatches id req r with
  | false => rfl
  | true => exact absurd ((updateMatches_iff id req r).1 hm) (h r hr)

theorem update_notFound_iff (db : Store) (env : Env) (id : UUID)
    (req : UpdateSubscriptionRequest) (hf : env.fault = none) (hf2 : env.fault2 = none) :
    ((subscriptionRepo.Update db env id req).1 = .error .notFound ↔ ∀ r ∈ db, r.ID ≠ id) ∧
    ((∀ r ∈ db, r.ID ≠ id) → (subscriptionRepo.Update db env id req).2 = db) := by
  have habs : (∀ r ∈ db, r.ID ≠ id) →
      subscriptionRepo.Update db env id req = (.error .notFound, db) := by
    intro h
    have hm := updateMatches_false_of_absent db id req h
    have hmap : db.map (fun r => if updateMatches id req r then applyPatch env.now req r
        else r) = db := by
      conv_rhs => rw [← List.map_id db]
      apply List.map_congr_left
      intro r hr
      simp [hm r hr]
    have hv := violatesUnique_false_of_untouched (updateMatches id req) db hm
    have h0 : (db.filter (updateMatches id req)).length = 0 :=
      (filter_length_eq_zero_iff _ db).2 hm
    unfold subscriptionRepo.Update execUpdate
    simp only [hmap]
    simp [hf, hf2, hv, h0]
  refine ⟨⟨?_, fun h => by rw [habs h]⟩, fun h => by rw [habs h]⟩
  intro hnf r hr hid
  have h0 : (db.filter (updateMatches id req)).length ≠ 0 := by
    rw [Ne, filter_length_eq_zero_iff]
    push_neg
    exact ⟨r, hr, by simp [(updateMatches_iff id req r).2 hid]⟩
  unfold subscriptionRepo.Update execUpdate at hnf
  simp only [hf, hf2] at hnf
  by_cases hv : violatesUnique (updateMatches id req)
      (db.map (fun r => if updateMatches id req r then applyPatch env.now req r else r)) = true
  · simp [hv] at hnf
  · simp [hv, h0] at hnf

theorem delete_eq (db : Store) (env : Env) (id : UUID) (hf : env.fault = none)
    (hf2 : env.fault2 = none) :
    subscriptionRepo.Delete db env id =
      (if ∀ r ∈ db, r.ID ≠ id then .error .notFound else .ok (),
       db.filter (fun r => decide (r.ID ≠ id))) := by
  have hfilter : db.filter (fun r => !holds [.eq (.col .id) (.param 1)] [.uuid id] r) =
      db.filter (fun r => decide (r.ID ≠ id)) := by
    apply List.filter_congr
    intro r _
    by_cases h : r.ID = id
    · simp [(holds_id id r).2 h, h]
    · have : holds [.eq (.col .id) (.param 1)] [.uuid id] r = false := by
        cases hm : holds [.eq (.col .id) (.param 1)] [.uuid id] r with
        | false => rfl
        | true => exact absurd ((holds_id id r).1 hm) h
      simp [this, h]
  have hlen : (db.filter (holds [.eq (.col .id) (.param 1)] [.uuid id])).length = 0 ↔
      ∀ r ∈ db, r.ID ≠ id := by
    rw [filter_length_eq_zero_iff]
    constructor
    · intro h r hr hid
      have := h r hr
      rw [(holds_id id r).2 hid] at this
      exact Bool.noConfusion this
    · intro h r hr
      cases hm : holds [.eq (.col .id) (.param 1)] [.uuid id] r with
      | false => rfl
      | true => exact absurd ((holds_id id r).1 hm) (h r hr)
  unfold subscriptionRepo.Delete execDelete
  rw [hfilter]
  simp only [hf, hf2]
  by_cases h : ∀ r ∈ db, r.ID ≠ id
  · rw [if_pos (hlen.2 h), if_pos h]
  · rw [if_neg (fun h0 => h (hlen.1 h0)), if_neg h]

/-- C8: on a connection that carries out the statement, `Update(id, patch)`,
for every patch, and `Delete(id)` fail with "subscription not found" (class
`NotFound`) if and only if no row of the store has the identifier, and the
store is then as it was; and after a successful `Delete` a second `Delete` of
the same identifier fails with "subscription not found". -/
theorem notFound_iff_no_row (db : Store) (env : Env) (id : UUID) (hf : env.fault = none)
    (hf2 : env.fault2 = none) :
    (∀ req : UpdateSubscriptionRequest,
      ((subscriptionRepo.Update db env id req).1 = .error .notFound ↔ ∀ r ∈ db, r.ID ≠ id) ∧
      ((∀ r ∈ db, r.ID ≠ id) → (subscriptionRepo.Update db env id req).2 = db)) ∧
    ((subscriptionRepo.Delete db env id).1 = .error .notFound ↔ ∀ r ∈ db, r.ID ≠ id) ∧
    ((∀ r ∈ db, r.ID ≠ id) → (subscriptionRepo.Delete db env id).2 = db) ∧
    (∀ env' : Env, env'.fault = none → env'.fault2 = none →
      (subscriptionRepo.Delete db env id).1 = .ok () →
      (subscriptionRepo.Delete (subscriptionRepo.Delete db env id).2 env' id).1 =
        .error .notFound) ∧
    RepoError.notFound.outcome = Outcome.NotFound := by
  refine ⟨fun req => update_notFound_iff db env id req hf hf2, ?_, ?_, ?_, rfl⟩
  · rw [delete_eq db env id hf hf2]
    by_cases h : ∀ r ∈ db, r.ID ≠ id <;> simp [h]
  · intro h
    rw [delete_eq db env id hf hf2]
    simp only
    rw [List.filter_eq_self]
    intro r hr
    simpa using h r hr
  · intro env' hf' hf2' _
    rw [delete_eq db env id hf hf2, delete_eq _ env' id hf' hf2']
    simp

/-- Witness of C8: a row is deleted and deleted again. -/
theorem notFound_iff_no_row_witness :
    (subscriptionRepo.Delete [⟨1, "netflix", 10, 7, 100, some 120, 5, 5⟩]
      (Env.healthy 9 3) 1).1 = .ok () ∧
    (subscriptionRepo.Delete
      (subscriptionRepo.Delete [⟨1, "netflix", 10, 7, 100, some 120, 5, 5⟩]
        (Env.healthy 9 3) 1).2 (Env.healthy 10 3) 1).1 = .error .notFound :=
  ⟨by decide,
   (notFound_iff_no_row [⟨1, "netflix", 10, 7, 100, some 120, 5, 5⟩] (Env.healthy 9 3) 1
      rfl rfl).2.2.2.1 (Env.healthy 10 3) rfl rfl (by decide)⟩

/-! ## `List` -/

theorem orderByCreatedAtDesc_perm (rows : List Subscription) :
    (orderByCreatedAtDesc rows).Perm rows :=
  List.perm_insertionSort _ rows

theorem orderByCreatedAtDesc_sorted (rows : List Subscription) :
    (orderByCreatedAtDesc rows).Pairwise (fun a b => a.CreatedAt ≥ b.CreatedAt) := by
  haveI : IsTotal Subscription (fun a b => a.CreatedAt ≥ b.CreatedAt) :=
    ⟨fun a b => Nat.le_total b.CreatedAt a.CreatedAt⟩
  haveI : IsTrans Subscription (fun a b => a.CreatedAt ≥ b.CreatedAt) :=
    ⟨fun a b c hab hbc => Nat.le_trans hbc hab⟩
  exact List.sorted_insertionSort (fun a b : Subscription => a.CreatedAt ≥ b.CreatedAt) rows

theorem list_filter_eq (db : Store) (userID : Option UUID) (serviceName : Option String) :
    db.filter (holds (listBuilder userID serviceName).conds
        (listBuilder userID serviceName).args) =
      db.filter (fun r => decide (listMatches userID serviceName r)) := by
  apply List.filter_congr
  intro r _
  rw [Bool.eq_iff_iff, holds_list]
  simp

/-- C9: on a connection that carries out the statement and scans the rows,
`List(userID?, serviceName?)` returns the rows of the store that satisfy every
filter that is present, each as often as it is in the store (a permutation of
the filtered table; of the whole table when no filter is present), ordered so
that of any two returned records the earlier one has `created_at` not before
the later one's. -/
theorem list_selects_and_orders (db : Store) (env : Env) (userID : Option UUID)
    (serviceName : Option String) (hf : env.fault = none) (hf2 : env.fault2 = none) :
    ∃ rows : List Subscription,
      subscriptionRepo.List db env userID serviceName = .ok rows ∧
      rows.Perm (db.filter (fun r => decide (listMatches userID serviceName r))) ∧
      (userID = none → serviceName = none → rows.Perm db) ∧
      rows.Pairwise (fun a b => a.CreatedAt ≥ b.CreatedAt) := by
  refine ⟨orderByCreatedAtDesc (db.filter (fun r => decide (listMatches userID serviceName r))),
    ?_, orderByCreatedAtDesc_perm _, ?_, orderByCreatedAtDesc_sorted _⟩
  · unfold subscriptionRepo.List
    rw [list_filter_eq]
    simp only [hf, hf2]
    split
    · rename_i h; cases h
    · rfl
  · intro hu hs
    subst hu hs
    have : db.filter (fun r => decide (listMatches none none r)) = db := by
      rw [List.filter_eq_self]
      intro r _
      simp [listMatches, userMatches, serviceMatches]
    rw [this]
    exact orderByCreatedAtDesc_perm db

/-- Witness of C9: three rows listed for one user come back most recent
first. -/
theorem list_selects_and_orders_witness :
    subscriptionRepo.List
        [⟨1, "netflix", 10, 7, 100, some 120, 5, 5⟩, ⟨2, "hbo", 12, 8, 100, none, 6, 6⟩,
         ⟨3, "hbo", 3, 7, 90, none, 8, 8⟩]
        (Env.healthy 9 4) (some 7) none =
      .ok [⟨3, "hbo", 3, 7, 90, none, 8, 8⟩, ⟨1, "netflix", 10, 7, 100, some 120, 5, 5⟩] ∧
    ∃ rows : List Subscription,
      subscriptionRepo.List
        [⟨1, "netflix", 10, 7, 100, some 120, 5, 5⟩, ⟨2, "hbo", 12, 8, 100, none, 6, 6⟩,
         ⟨3, "hbo", 3, 7, 90, none, 8, 8⟩]
        (Env.healthy 9 4) (some 7) none = .ok rows ∧
      rows.Pairwise (fun a b => a.CreatedAt ≥ b.CreatedAt) :=
  ⟨by decide,
   (list_selects_and_orders
      [⟨1, "netflix", 10, 7, 100, some 120, 5, 5⟩, ⟨2, "hbo", 12, 8, 100, none, 6, 6⟩,
       ⟨3, "hbo", 3, 7, 90, none, 8, 8⟩]
      (Env.healthy 9 4) (some 7) none rfl rfl).imp (fun _ h => ⟨h.1, h.2.2.2⟩)⟩

/-! ## `GetSummary`: the selected rows -/

theorem summaryRows_eq (db : Store) (req : SummaryRequest) :
    summaryRows db req = db.filter (fun r => decide (summaryMatches req r)) := by
  unfold summaryRows
  apply List.filter_congr
  intro r _
  rw [Bool.eq_iff_iff, holds_summary]
  simp

theorem getSummary_empty_selection (db : Store) (env : Env) (req : SummaryRequest)
    (hf : env.fault = none) (hno : ∀ r ∈ db, ¬ summaryMatches req r) :
    subscriptionRepo.GetSummary db env req = .ok ⟨0, []⟩ := by
  have : summaryRows db req = [] := by
    rw [summaryRows_eq, List.filter_eq_nil_iff]
    intro r hr
    simpa using hno r hr
  unfold subscriptionRepo.GetSummary
  simp only [hf, this]
  rfl

/-! ## The statement texts -/

/-- The text `GetSummary` sends when every filter is present. -/
theorem summaryQuery_all_filters :
    summaryQuery ⟨some 5, some 9, some 1, some "x"⟩ =
      "SELECT COALESCE(SUM(price), 0) as total_cost FROM subscriptions WHERE 1=1" ++
      " AND start_date <= $1 AND (end_date IS NULL OR end_date >= $2)" ++
      " AND user_id = $3 AND service_name = $4" := by
  rfl

/-- The text `List` sends when both filters are present. -/
theorem listQuery_all_filters :
    listQuery (some 1) (some "x") =
      "\n        SELECT id, service_name, price, user_id, start_date, end_date, created_at, updated_at\n        FROM subscriptions \n        WHERE 1=1\n    " ++
      " AND user_id = $1 AND service_name = $2 ORDER BY created_at DESC" := by
  rfl

/-! ## The end date in a patch -/

theorem forall₂_self_map (P : Subscription → Subscription → Prop)
    (f : Subscription → Subscription) (db : Store) (h : ∀ r ∈ db, P r (f r)) :
    List.Forall₂ P db (db.map f) := by
  induction db with
  | nil => exact List.Forall₂.nil
  | cons a l ih =>
    exact List.Forall₂.cons (h a (List.mem_cons_self _ _))
      (ih (fun r hr => h r (List.mem_cons_of_mem _ hr)))

theorem mem_zip_self_map (f : Subscription → Subscription) (db : Store)
    (r r' : Subscription) (h : (r, r') ∈ db.zip (db.map f)) : r' = f r := by
  induction db with
  | nil => simp at h
  | cons a l ih =>
    simp only [List.map_cons, List.zip_cons_cons, List.mem_cons, Prod.mk.injEq] at h
    rcases h with ⟨h1, h2⟩ | h
    · rw [h1, h2]
    · exact ih h

theorem mem_zip_self (db : Store) (r r' : Subscription) (h : (r, r') ∈ db.zip db) :
    r' = r := by
  have := mem_zip_self_map id db r r' (by simpa using h)
  simpa using this

theorem specUpdatedRow_endDate (now : Timestamp) (req : UpdateSubscriptionRequest)
    (r : Subscription) :
    (r.EndDate ≠ none → (specUpdatedRow now req r).EndDate ≠ none) ∧
    (req.EndDate = none → (specUpdatedRow now req r).EndDate = r.EndDate) ∧
    (∀ d, req.EndDate = some d → (specUpdatedRow now req r).EndDate = some d) := by
  obtain ⟨sn, pr, ed⟩ := req
  cases ed <;> simp [specUpdatedRow]

/-- Counterexample to C11: no value of `UpdateSubscriptionRequest`, on no
store, makes `Update` turn the present end date of a row into an absent one
(`r` is a row before the call and `r'` the row at its place after it); and
the patch without end date, the only one that binds `NULL` to `$3`, leaves the
end date 120 of the updated row in place. -/
theorem no_patch_clears_end_date :
    (¬ ∃ (req : UpdateSubscriptionRequest) (db : Store) (env : Env) (id : UUID)
        (r r' : Subscription),
      (r, r') ∈ db.zip (subscriptionRepo.Update db env id req).2 ∧
        r.EndDate ≠ none ∧ r'.EndDate = none) ∧
    subscriptionRepo.Update [⟨1, "netflix", 10, 7, 100, some 120, 5, 5⟩] (Env.healthy 9 2) 1
        ⟨none, none, none⟩ =
      (.ok (), [⟨1, "netflix", 10, 7, 100, some 120, 5, 9⟩]) := by
  refine ⟨?_, by decide⟩
  rintro ⟨req, db, env, id, r, r', hmem, hpresent, habsent⟩
  rcases update_store_cases db env id req with hc | ⟨_, hc⟩
  · rw [hc] at hmem
    rw [mem_zip_self db r r' hmem] at habsent
    exact hpresent habsent
  · rw [hc] at hmem
    have hr' := mem_zip_self_map _ db r r' hmem
    by_cases hid : r.ID = id
    · simp only [hid, if_true] at hr'
      rw [hr'] at habsent
      exact (specUpdatedRow_endDate env.now req r).1 hpresent habsent
    · simp only [hid, if_false] at hr'
      rw [hr'] at habsent
      exact hpresent habsent

theorem update_ok_store (db : Store) (env : Env) (id : UUID)
    (req : UpdateSubscriptionRequest)
    (h : (subscriptionRepo.Update db env id req).1 = .ok ()) :
    (∃ r ∈ db, r.ID = id) ∧
    (subscriptionRepo.Update db env id req).2 =
      db.map (fun r => if r.ID = id then specUpdatedRow env.now req r else r) := by
  unfold subscriptionRepo.Update execUpdate at h ⊢
  rw [updated_table_eq] at h ⊢
  cases hf : env.fault with
  | some e => simp [hf] at h
  | none =>
    cases hv : violatesUnique (updateMatches id req)
        (db.map (fun r => if r.ID = id then specUpdatedRow env.now req r else r)) with
    | true => simp [hf, hv] at h
    | false =>
      cases hf2 : env.fault2 with
      | some e => simp [hf, hv, hf2] at h
      | none =>
        by_cases h0 : (db.filter (updateMatches id req)).length = 0
        · simp [hf, hv, hf2, h0] at h
        · refine ⟨?_, by simp [hv, h0]⟩
          rw [filter_length_eq_zero_iff] at h0
          push_neg at h0
          obtain ⟨r, hr, hm⟩ := h0
          exact ⟨r, hr, (updateMatches_iff id req r).1 (by simpa using hm)⟩

/-- C11, amended: the patch has one optional end date and `Update` never
clears an end date. For every row `r` before an `Update` and the row `r'` at
its place after it: a present end date stays present; a patch without end
date leaves the end date as it was; after a successful `Update` with the end
date `d` in the patch the row with the identifier has end date `d`; and a row
with another identifier is as before. A successful `Update` has such a row to
write. -/
theorem update_end_date_patch (db : Store) (env : Env) (id : UUID)
    (req : UpdateSubscriptionRequest) :
    List.Forall₂
      (fun r r' => (r.EndDate ≠ none → r'.EndDate ≠ none) ∧
        (req.EndDate = none → r'.EndDate = r.EndDate) ∧
        (∀ d, req.EndDate = some d → (subscriptionRepo.Update db env id req).1 = .ok () →
          r.ID = id → r'.EndDate = some d) ∧
        (r.ID ≠ id → r' = r))
      db (subscriptionRepo.Update db env id req).2 ∧
    ((subscriptionRepo.Update db env id req).1 = .ok () → ∃ r ∈ db, r.ID = id) := by
  refine ⟨?_, fun h => (update_ok_store db env id req h).1⟩
  have hwritten : (subscriptionRepo.Update db env id req).2 =
      db.map (fun r => if r.ID = id then specUpdatedRow env.now req r else r) →
      List.Forall₂
        (fun r r' => (r.EndDate ≠ none → r'.EndDate ≠ none) ∧
          (req.EndDate = none → r'.EndDate = r.EndDate) ∧
          (∀ d, req.EndDate = some d → (subscriptionRepo.Update db env id req).1 = .ok () →
            r.ID = id → r'.EndDate = some d) ∧
          (r.ID ≠ id → r' = r))
        db (subscriptionRepo.Update db env id req).2 := by
    intro hc
    rw [hc]
    apply forall₂_self_map
    intro r _
    by_cases hid : r.ID = id
    · rw [if_pos hid]
      have h := specUpdatedRow_endDate env.now req r
      exact ⟨h.1, h.2.1, fun d hd _ _ => h.2.2 d hd, fun hne => absurd hid hne⟩
    · rw [if_neg hid]
      exact ⟨fun h => h, fun _ => rfl, fun _ _ _ hi => absurd hi hid, fun _ => rfl⟩
  by_cases hok : (subscriptionRepo.Update db env id req).1 = .ok ()
  · exact hwritten (update_ok_store db env id req hok).2
  · rcases update_store_cases db env id req with hc | ⟨_, hc⟩
    · rw [hc]
      have := forall₂_self_map
        (fun r r' => (r.EndDate ≠ none → r'.EndDate ≠ none) ∧
          (req.EndDate = none → r'.EndDate = r.EndDate) ∧
          (∀ d, req.EndDate = some d → (subscriptionRepo.Update db env id req).1 = .ok () →
            r.ID = id → r'.EndDate = some d) ∧
          (r.ID ≠ id → r' = r)) (fun r => r) db
        (fun r _ => ⟨fun h => h, fun _ => rfl, fun _ _ h _ => absurd h hok, fun _ => rfl⟩)
      rw [List.map_id'] at this
      exact this
    · exact hwritten hc

/-- Witness of C11, amended: a patch with the end date 130 on a row with the
end date 120 succeeds and leaves one row, with the end date 130. -/
theorem update_end_date_patch_witness :
    (subscriptionRepo.Update [⟨1, "netflix", 10, 7, 100, some 120, 5, 5⟩]
      (Env.healthy 9 2) 1 ⟨none, none, some 130⟩).1 = .ok () ∧
    ∃ r' : Subscription,
      (subscriptionRepo.Update [⟨1, "netflix", 10, 7, 100, some 120, 5, 5⟩]
        (Env.healthy 9 2) 1 ⟨none, none, some 130⟩).2 = [r'] ∧
      r'.EndDate = some 130 := by
  refine ⟨by decide, ?_⟩
  have h := (update_end_date_patch [⟨1, "netflix", 10, 7, 100, some 120, 5, 5⟩]
    (Env.healthy 9 2) 1 ⟨none, none, some 130⟩).1
  obtain ⟨r', u', hr, hu, heq⟩ := List.forall₂_cons_left_iff.1 h
  rw [List.forall₂_nil_left_iff] at hu
  subst hu
  exact ⟨r', heq, hr.2.2.1 130 rfl (by decide) rfl⟩

/-! ## The status of the `PUT` and `DELETE` handlers -/

/-- C12, as the code behaves: for a well-formed identifier and a bound body
the `PUT` and `DELETE` handlers answer 500 or 200 and never 404. On an empty
store with a healthy connection the service reports "subscription not found"
for identifier 3, and both handlers answer 500, while the `GET` handler
answers 404 for the same identifier. -/
theorem put_delete_status_on_notFound :
    (∀ (db : Store) (env : Env) (id : UUID) (req : UpdateSubscriptionRequest),
      (SubscriptionHandler.UpdateSubscription db env (some id) (some req)).1.status = 500 ∨
      (SubscriptionHandler.UpdateSubscription db env (some id) (some req)).1.status = 200) ∧
    (∀ (db : Store) (env : Env) (id : UUID),
      (SubscriptionHandler.DeleteSubscription db env (some id)).1.status = 500 ∨
      (SubscriptionHandler.DeleteSubscription db env (some id)).1.status = 200) ∧
    (subscriptionService.DeleteSubscription [] (Env.healthy 9 2) 3).1 = .error .notFound ∧
    (SubscriptionHandler.DeleteSubscription [] (Env.healthy 9 2) (some 3)).1 =
      ⟨500, .error "Failed to delete subscription"⟩ ∧
    (subscriptionService.UpdateSubscription [] (Env.healthy 9 2) 3 emptyPatch).1 =
      .error .notFound ∧
    (SubscriptionHandler.UpdateSubscription [] (Env.healthy 9 2) (some 3) (some emptyPatch)).1 =
      ⟨500, .error "Failed to update subscription"⟩ ∧
    SubscriptionHandler.GetSubscription [] (Env.healthy 9 2) (some 3) =
      ⟨404, .error "Subscription not found"⟩ := by
  refine ⟨?_, ?_, by decide, by decide, by decide, by decide, by decide⟩
  · intro db env id req
    unfold SubscriptionHandler.UpdateSubscription
    simp only
    split
    · exact Or.inl rfl
    · exact Or.inr rfl
  · intro db env id
    unfold SubscriptionHandler.DeleteSubscription
    simp only
    split
    · exact Or.inl rfl
    · exact Or.inr rfl

/-! ## Placeholders and the statement text -/

theorem summaryQuery_eq_ofPresence (req : SummaryRequest) :
    summaryQuery req = summaryQuery (SummaryRequest.ofPresence req.presence) := by
  obtain ⟨a, b, c, d⟩ := req
  cases a <;> cases b <;> cases c <;> cases d <;> rfl

theorem summaryArgs_length_ofPresence (req : SummaryRequest) :
    (summaryBuilder req).args.length =
      (summaryBuilder (SummaryRequest.ofPresence req.presence)).args.length := by
  obtain ⟨a, b, c, d⟩ := req
  cases a <;> cases b <;> cases c <;> cases d <;> rfl

set_option maxRecDepth 1000000 in
theorem summary_placeholders_ofPresence : ∀ p : Bool × Bool × Bool × Bool,
    placeholdersOf (summaryQuery (SummaryRequest.ofPresence p)) =
      List.range' 1 (summaryBuilder (SummaryRequest.ofPresence p)).args.length := by
  decide

theorem listQuery_eq_ofPresence (userID : Option UUID) (serviceName : Option String) :
    listQuery userID serviceName =
      listQuery (if userID.isSome then some 0 else none)
        (if serviceName.isSome then some "" else none) := by
  cases userID <;> cases serviceName <;> rfl

theorem listArgs_length_ofPresence (userID : Option UUID) (serviceName : Option String) :
    (listBuilder userID serviceName).args.length =
      (listBuilder (if userID.isSome then some 0 else none)
        (if serviceName.isSome then some "" else none)).args.length := by
  cases userID <;> cases serviceName <;> rfl

set_option maxRecDepth 1000000 in
theorem list_placeholders_ofPresence : ∀ p : Bool × Bool,
    placeholdersOf (listQuery (if p.1 then some 0 else none)
        (if p.2 then some "" else none)) =
      List.range' 1 (listBuilder (if p.1 then some 0 else none)
        (if p.2 then some "" else none)).args.length := by
  decide

/-- C13: for every combination of present and absent filters, the
placeholders in the text of the `GetSummary` statement and of the `List`
statement are, in their order of appearance, exactly `$1, …, $n` with `n` the
number of bound arguments; and the conjuncts and arguments the code builds
with its running `argPos` are the filters in the fixed order date, user,
service rendered positionally, so that the argument at position `i` is the
value of the filter whose predicate carries `$i`. With both dates, `$1` is
the query end date compared with `start_date` and `$2` the query start date
compared with `end_date`. -/
theorem placeholders_positional (req : SummaryRequest) (userID : Option UUID)
    (serviceName : Option String) :
    placeholdersOf (summaryQuery req) = List.range' 1 (summaryBuilder req).args.length ∧
    ((summaryBuilder req).conds, (summaryBuilder req).args) =
      renderPositional (specSummaryFilters req) ∧
    placeholdersOf (listQuery userID serviceName) =
      List.range' 1 (listBuilder userID serviceName).args.length ∧
    ((listBuilder userID serviceName).conds, (listBuilder userID serviceName).args) =
      renderPositional (specListFilters userID serviceName) ∧
    (∀ (qs qe : Date) (u : Option UUID) (sn : Option String),
      (summaryBuilder ⟨some qs, some qe, u, sn⟩).conds.take 2 =
        [.le (.col .start_date) (.param 1),
         .or (.isNull (.col .end_date)) (.ge (.col .end_date) (.param 2))] ∧
      (summaryBuilder ⟨some qs, some qe, u, sn⟩).args.take 2 = [.date qe, .date qs]) := by
  refine ⟨?_, ?_, ?_, ?_, ?_⟩
  · rw [summaryQuery_eq_ofPresence, summaryArgs_length_ofPresence]
    exact summary_placeholders_ofPresence _
  · obtain ⟨a, b, c, d⟩ := req
    cases a <;> cases b <;> cases c <;> cases d <;> rfl
  · rw [listQuery_eq_ofPresence, listArgs_length_ofPresence]
    exact list_placeholders_ofPresence (userID.isSome, serviceName.isSome)
  · cases userID <;> cases serviceName <;> rfl
  · intro qs qe u sn
    cases u <;> cases sn <;> exact ⟨rfl, rfl⟩

/-- C14: the text of the `GetSummary` statement and of the `List` statement
depends only on which filters are present: two requests with the same present
filters give the same text, whatever the values are; and a present service
name is among the bound arguments. -/
theorem statement_text_of_presence_only (req req' : SummaryRequest)
    (userID userID' : Option UUID) (serviceName serviceName' : Option String) :
    (req.presence = req'.presence → summaryQuery req = summaryQuery req') ∧
    (userID.isSome = userID'.isSome → serviceName.isSome = serviceName'.isSome →
      listQuery userID serviceName = listQuery userID' serviceName') ∧
    (∀ s, req.ServiceName = some s → Value.text s ∈ (summaryBuilder req).args) ∧
    (∀ s, serviceName = some s → Value.text s ∈ (listBuilder userID serviceName).args) := by
  refine ⟨?_, ?_, ?_, ?_⟩
  · intro h
    rw [summaryQuery_eq_ofPresence req, summaryQuery_eq_ofPresence req', h]
  · intro hu hs
    rw [listQuery_eq_ofPresence userID, listQuery_eq_ofPresence userID', hu, hs]
  · intro s hs
    obtain ⟨a, b, c, d⟩ := req
    simp only at hs
    subst hs
    cases a <;> cases b <;> cases c <;>
      simp [summaryBuilder, summaryDateFilter, userFilter, summaryServiceFilter, Builder.init]
  · intro s hs
    subst hs
    cases userID <;> simp [listBuilder, userFilter, listServiceFilter, Builder.init]

/-- Witness of C14: two service names, one of them written like a piece of a
statement, give the same text for `GetSummary` and for `List`. -/
theorem statement_text_of_presence_only_witness :
    summaryQuery ⟨none, none, none, some "netflix"⟩ =
      summaryQuery ⟨none, none, none, some "x OR 1=1; DROP TABLE subscriptions; --"⟩ ∧
    listQuery (some 7) (some "netflix") =
      listQuery (some 8) (some "x OR 1=1; DROP TABLE subscriptions; --") :=
  ⟨(statement_text_of_presence_only ⟨none, none, none, some "netflix"⟩
      ⟨none, none, none, some "x OR 1=1; DROP TABLE subscriptions; --"⟩
      (some 7) (some 8) (some "netflix")
      (some "x OR 1=1; DROP TABLE subscriptions; --")).1 rfl,
   (statement_text_of_presence_only ⟨none, none, none, some "netflix"⟩
      ⟨none, none, none, some "x OR 1=1; DROP TABLE subscriptions; --"⟩
      (some 7) (some 8) (some "netflix")
      (some "x OR 1=1; DROP TABLE subscriptions; --")).2.1 rfl rfl⟩

end SubscriptionService
